import Mathlib

/-
Shallow embedding of the cart pricing/state engine of the Dego e-commerce
storefront (src/src/core/services/cart.service.ts, with the pure helpers of
src/src/utils/cart-helpers.ts).  JavaScript numbers are modelled as exact
rationals; JS Math.round is floor (x + 1/2) on rationals, which agrees with
the IEEE behaviour on every value the claims touch.  The BehaviorSubject
publications of the service are modelled by an explicit state record carrying
the current item list, the current discount, the last published snapshot and
a counter of snapshot publications.
-/

/-- Discount kind, from the TypeScript union type 'percentage' | 'fixed'. -/
inductive DiscountType where
  | percentage
  | fixed
deriving DecidableEq

/-- CartItem interface of cart.service.ts.  The optional `subtotal` field is
only ever filled in by `updateCartState` on the snapshot copies. -/
structure CartItem where
  id : ℤ
  title : String
  price : ℚ
  image : String
  quantity : ℚ
  subtotal : Option ℚ
deriving DecidableEq

/-- Discount interface of cart.service.ts.  The `expiryDate` field is omitted:
no code path of the service reads it. -/
structure Discount where
  id : String
  code : String
  type : DiscountType
  value : ℚ
  maxDiscount : Option ℚ
  minAmount : Option ℚ
  applied : Bool
deriving DecidableEq

/-- CartState interface of cart.service.ts: the derived snapshot. -/
structure CartState where
  items : List CartItem
  subtotal : ℚ
  itemCount : ℚ
  discount : Option Discount
  discountAmount : ℚ
  tax : ℚ
  taxRate : ℚ
  shippingCost : ℚ
  total : ℚ
deriving DecidableEq

/-- The `Omit CartItem quantity subtotal` argument of addToCart. -/
structure ProductInfo where
  id : ℤ
  title : String
  price : ℚ
  image : String
deriving DecidableEq

/-- TAX_RATE = 0.10 of cart.service.ts. -/
def TAX_RATE : ℚ := 1/10

/-- SHIPPING_COST = 10 of cart.service.ts. -/
def SHIPPING_COST : ℚ := 10

/-- FREE_SHIPPING_THRESHOLD = 100 of cart.service.ts. -/
def FREE_SHIPPING_THRESHOLD : ℚ := 100

/-- JS Math.round on exact rationals: round half toward positive infinity. -/
def jsRound (x : ℚ) : ℤ := ⌊x + 1/2⌋

/-- The rounding idiom Math.round (x * 100) / 100 used by the service. -/
def round2 (x : ℚ) : ℚ := (jsRound (x * 100) : ℚ) / 100

/-- getSubtotal of cart.service.ts: reduce over price * quantity. -/
def getSubtotal (items : List CartItem) : ℚ :=
  items.foldl (fun total item => total + item.price * item.quantity) 0

/-- getCartItemCount of cart.service.ts: reduce over quantity. -/
def getCartItemCount (items : List CartItem) : ℚ :=
  items.foldl (fun count item => count + item.quantity) 0

/-- getDiscountAmount of cart.service.ts.  The JS test
`disc.maxDiscount ? Math.min(amount, disc.maxDiscount) : amount` treats a cap
of 0 as falsy, hence the extra `m = 0` case. -/
def getDiscountAmount (disc : Option Discount) (items : List CartItem) : ℚ :=
  match disc with
  | none => 0
  | some d =>
    if d.applied then
      let subtotal := getSubtotal items
      match d.type with
      | DiscountType.percentage =>
        let amount := subtotal * d.value / 100
        match d.maxDiscount with
        | some m => if m = 0 then amount else min amount m
        | none => amount
      | DiscountType.fixed => d.value
    else 0

/-- calculateTax of cart.service.ts: Math.round (amount * TAX_RATE * 100) / 100. -/
def calculateTax (amount : ℚ) : ℚ := (jsRound (amount * TAX_RATE * 100) : ℚ) / 100

/-- calculateShipping of cart.service.ts. -/
def calculateShipping (subtotal : ℚ) : ℚ :=
  if subtotal ≥ FREE_SHIPPING_THRESHOLD then 0 else SHIPPING_COST

/-- updateCartState of cart.service.ts: the snapshot recomputation performed
after every mutation. -/
def updateCartState (items : List CartItem) (disc : Option Discount) : CartState :=
  let subtotal := getSubtotal items
  let discountAmount := getDiscountAmount disc items
  let tax := calculateTax (subtotal - discountAmount)
  let shipping := calculateShipping subtotal
  let total := subtotal - discountAmount + tax + shipping
  { items := items.map (fun item => { item with subtotal := some (item.price * item.quantity) }),
    subtotal := subtotal,
    itemCount := getCartItemCount items,
    discount := disc,
    discountAmount := discountAmount,
    tax := tax,
    taxRate := TAX_RATE,
    shippingCost := shipping,
    total := round2 total }

/-- getEmptyCartState of cart.service.ts: the value the cartState
BehaviorSubject is seeded with before the constructor recomputes. -/
def getEmptyCartState : CartState :=
  { items := [], subtotal := 0, itemCount := 0, discount := none, discountAmount := 0,
    tax := 0, taxRate := TAX_RATE, shippingCost := 0, total := 0 }

/-- In-memory state of a CartService instance: current items, current
discount, last published snapshot, and a count of cartState publications
(each `cartState.next` bumps it). -/
structure ServiceState where
  cartItems : List CartItem
  discount : Option Discount
  cartState : CartState
  snapshotVersion : ℕ
deriving DecidableEq

/-- Commit new items and discount and publish the recomputed snapshot, as the
tail of every mutating method (`next` calls followed by updateCartState). -/
def publishState (s : ServiceState) (items : List CartItem) (disc : Option Discount) :
    ServiceState :=
  { cartItems := items, discount := disc,
    cartState := updateCartState items disc,
    snapshotVersion := s.snapshotVersion + 1 }

/-- State right after the constructor: loadCart and loadDiscount may restore
any persisted items and discount (or nothing, leaving [] and null), then
updateCartState publishes the first real snapshot. -/
def initialState (items : List CartItem) (disc : Option Discount) : ServiceState :=
  { cartItems := items, discount := disc,
    cartState := updateCartState items disc,
    snapshotVersion := 1 }

/-- Mutation of the first list entry satisfying `p`, as performed by the JS
`find` followed by in-place mutation of the found object. -/
def updateFirst (p : CartItem → Bool) (f : CartItem → CartItem) :
    List CartItem → List CartItem
  | [] => []
  | item :: rest => if p item then f item :: rest else item :: updateFirst p f rest

/-- addToCart of cart.service.ts.  The existing line (the first one with the
product's id) is incremented; otherwise the new line is pushed with the given
quantity as is. -/
def addToCart (s : ServiceState) (product : ProductInfo) (quantity : ℚ) : ServiceState :=
  let newItems :=
    match s.cartItems.find? (fun item => decide (item.id = product.id)) with
    | some _ =>
      updateFirst (fun item => decide (item.id = product.id))
        (fun item => { item with quantity := item.quantity + quantity }) s.cartItems
    | none =>
      let pushed : CartItem :=
        { id := product.id, title := product.title, price := product.price,
          image := product.image, quantity := quantity, subtotal := none }
      s.cartItems ++ [pushed]
  publishState s newItems s.discount

/-- removeFromCart of cart.service.ts. -/
def removeFromCart (s : ServiceState) (productId : ℤ) : ServiceState :=
  publishState s (s.cartItems.filter (fun item => decide (item.id ≠ productId))) s.discount

/-- increaseQuantity of cart.service.ts: a no-op when the id is absent. -/
def increaseQuantity (s : ServiceState) (productId : ℤ) : ServiceState :=
  match s.cartItems.find? (fun item => decide (item.id = productId)) with
  | some _ =>
    publishState s
      (updateFirst (fun item => decide (item.id = productId))
        (fun item => { item with quantity := item.quantity + 1 }) s.cartItems)
      s.discount
  | none => s

/-- decreaseQuantity of cart.service.ts: delegates to removeFromCart when the
found line is at quantity 1 or below. -/
def decreaseQuantity (s : ServiceState) (productId : ℤ) : ServiceState :=
  match s.cartItems.find? (fun item => decide (item.id = productId)) with
  | some item =>
    if item.quantity > 1 then
      publishState s
        (updateFirst (fun i => decide (i.id = productId))
          (fun i => { i with quantity := i.quantity - 1 }) s.cartItems)
        s.discount
    else removeFromCart s productId
  | none => s

/-- setQuantity of cart.service.ts: non-positive quantities remove the line,
otherwise the found line is clamped with Math.max 1 (Math.min quantity 999). -/
def setQuantity (s : ServiceState) (productId : ℤ) (quantity : ℚ) : ServiceState :=
  if quantity ≤ 0 then removeFromCart s productId
  else
    match s.cartItems.find? (fun item => decide (item.id = productId)) with
    | some _ =>
      publishState s
        (updateFirst (fun item => decide (item.id = productId))
          (fun item => { item with quantity := max 1 (min quantity 999) }) s.cartItems)
        s.discount
    | none => s

/-- clearCart of cart.service.ts. -/
def clearCart (s : ServiceState) : ServiceState :=
  publishState s [] none

/-- JS String.prototype.toUpperCase, modelled characterwise; it agrees with
the JS builtin on the ASCII code strings the discount table uses. -/
def jsToUpper (s : String) : String := ⟨s.data.map Char.toUpper⟩

/-- validateDiscountCode of cart.service.ts: the fixed mock code table,
looked up by the uppercased code. -/
def validateDiscountCode (code : String) : Option Discount :=
  let key := jsToUpper code
  if key = "SAVE10" then
    some { id := "1", code := "SAVE10", type := DiscountType.percentage, value := 10,
           maxDiscount := none, minAmount := none, applied := false }
  else if key = "FLAT20" then
    some { id := "2", code := "FLAT20", type := DiscountType.fixed, value := 20,
           maxDiscount := none, minAmount := some 50, applied := false }
  else if key = "SAVE20" then
    some { id := "3", code := "SAVE20", type := DiscountType.percentage, value := 20,
           maxDiscount := some 50, minAmount := none, applied := false }
  else none

/-- The guard `validDiscount.minAmount && subtotal < validDiscount.minAmount`
of applyDiscount; a minAmount of 0 is falsy in JS. -/
def minAmountBlocks (d : Discount) (subtotal : ℚ) : Bool :=
  match d.minAmount with
  | some m => decide (m ≠ 0) && decide (subtotal < m)
  | none => false

/-- applyDiscount of cart.service.ts: returns the boolean result together
with the (possibly unchanged) service state. -/
def applyDiscount (s : ServiceState) (code : String) : Bool × ServiceState :=
  match validateDiscountCode code with
  | none => (false, s)
  | some validDiscount =>
    if minAmountBlocks validDiscount (getSubtotal s.cartItems) then (false, s)
    else (true, publishState s s.cartItems (some { validDiscount with applied := true }))

/-- removeDiscount of cart.service.ts. -/
def removeDiscount (s : ServiceState) : ServiceState :=
  publishState s s.cartItems none

/-- Concrete run: add a 40-priced and a 20-priced item, apply FLAT20 at
subtotal 60, then remove the 20-priced item leaving subtotal 40 < 50. -/
def runBelowMin : ServiceState :=
  removeFromCart
    (applyDiscount
      (addToCart (addToCart (initialState [] none) ⟨1, "A", 40, "a"⟩ 1) ⟨2, "B", 20, "b"⟩ 1)
      "FLAT20").2
    2

/-- Concrete run: add a 45-priced and a 5-priced item, apply FLAT20 at
subtotal 50, then remove the 45-priced item leaving subtotal 5 < 20. -/
def runOverDiscount : ServiceState :=
  removeFromCart
    (applyDiscount
      (addToCart (addToCart (initialState [] none) ⟨1, "A", 45, "a"⟩ 1) ⟨2, "B", 5, "b"⟩ 1)
      "FLAT20").2
    1

/-- Concrete run: add one 50-priced item, apply FLAT20 at subtotal 50, then
remove it, leaving an empty cart with the fixed discount still applied. -/
def runEmptyWithDiscount : ServiceState :=
  removeFromCart
    (applyDiscount (addToCart (initialState [] none) ⟨1, "A", 50, "a"⟩ 1) "FLAT20").2
    1

/-- Concrete run for scenario A: one line of unit price 50 and quantity 2,
then apply SAVE10. -/
def runScenarioA : Bool × ServiceState :=
  applyDiscount (addToCart (initialState [] none) ⟨1, "A", 50, "a"⟩ 2) "SAVE10"

/-- The service states reachable from a fresh constructor run through the
public mutating methods. -/
inductive Reachable : ServiceState → Prop where
  | init (items : List CartItem) (disc : Option Discount) :
      Reachable (initialState items disc)
  | add {s : ServiceState} (p : ProductInfo) (q : ℚ) :
      Reachable s → Reachable (addToCart s p q)
  | remove {s : ServiceState} (pid : ℤ) :
      Reachable s → Reachable (removeFromCart s pid)
  | inc {s : ServiceState} (pid : ℤ) :
      Reachable s → Reachable (increaseQuantity s pid)
  | dec {s : ServiceState} (pid : ℤ) :
      Reachable s → Reachable (decreaseQuantity s pid)
  | setQ {s : ServiceState} (pid : ℤ) (q : ℚ) :
      Reachable s → Reachable (setQuantity s pid q)
  | clear {s : ServiceState} :
      Reachable s → Reachable (clearCart s)
  | applyDisc {s : ServiceState} (code : String) :
      Reachable s → Reachable (applyDiscount s code).2
  | removeDisc {s : ServiceState} :
      Reachable s → Reachable (removeDiscount s)

/-- Every reachable state carries as its last published snapshot exactly the
updateCartState recomputation of its current items and discount. -/
theorem reachable_state_consistent {s : ServiceState} (h : Reachable s) :
    s.cartState = updateCartState s.cartItems s.discount := by
  induction h with
  | init items disc => rfl
  | add p q hs ih => rfl
  | remove pid hs ih => rfl
  | @inc t pid hs ih =>
    unfold increaseQuantity
    cases hfind : t.cartItems.find? (fun item => decide (item.id = pid)) with
    | some it => rfl
    | none => exact ih
  | @dec t pid hs ih =>
    unfold decreaseQuantity
    cases hfind : t.cartItems.find? (fun item => decide (item.id = pid)) with
    | some it =>
      dsimp only
      by_cases hq : it.quantity > 1
      · rw [if_pos hq]; rfl
      · rw [if_neg hq]; rfl
    | none => exact ih
  | @setQ t pid q hs ih =>
    unfold setQuantity
    by_cases hq : q ≤ 0
    · rw [if_pos hq]; rfl
    · rw [if_neg hq]
      cases hfind : t.cartItems.find? (fun item => decide (item.id = pid)) with
      | some it => rfl
      | none => exact ih
  | clear hs ih => rfl
  | @applyDisc t code hs ih =>
    unfold applyDiscount
    cases hv : validateDiscountCode code with
    | none => exact ih
    | some d =>
      dsimp only
      by_cases hb : minAmountBlocks d (getSubtotal t.cartItems) = true
      · rw [if_pos hb]; exact ih
      · rw [if_neg hb]; rfl
  | removeDisc hs ih => rfl

/-- A filter that keeps ids different from an absent id keeps every item. -/
theorem filter_keep_of_absent (l : List CartItem) (pid : ℤ)
    (h : ∀ i ∈ l, i.id ≠ pid) :
    l.filter (fun i => decide (i.id ≠ pid)) = l :=
  List.filter_eq_self.mpr (fun a ha => decide_eq_true (h a ha))

/-- Searching for an absent id finds nothing. -/
theorem find_none_of_absent (l : List CartItem) (pid : ℤ)
    (h : ∀ i ∈ l, i.id ≠ pid) :
    l.find? (fun i => decide (i.id = pid)) = none :=
  List.find?_eq_none.mpr (fun a ha => by simpa using h a ha)

/-- find? returns the first entry satisfying the predicate. -/
theorem find_first_entry (pre post : List CartItem) (item : CartItem) (p : CartItem → Bool)
    (hpre : ∀ i ∈ pre, p i = false) (hit : p item = true) :
    (pre ++ item :: post).find? p = some item := by
  induction pre with
  | nil => simp [List.find?_cons, hit]
  | cons a t ih =>
    have ha : p a = false := hpre a (List.mem_cons_self a t)
    simp only [List.cons_append, List.find?_cons, ha]
    exact ih (fun i hi => hpre i (List.mem_cons_of_mem a hi))

/-- updateFirst rewrites exactly the first entry satisfying the predicate. -/
theorem updateFirst_append (pre post : List CartItem) (item : CartItem)
    (p : CartItem → Bool) (f : CartItem → CartItem)
    (hpre : ∀ i ∈ pre, p i = false) (hit : p item = true) :
    updateFirst p f (pre ++ item :: post) = pre ++ f item :: post := by
  induction pre with
  | nil => simp [updateFirst, hit]
  | cons a t ih =>
    have ha : p a = false := hpre a (List.mem_cons_self a t)
    simp only [List.cons_append, updateFirst, ha, Bool.false_eq_true, if_false,
      List.cons.injEq, true_and]
    exact ih (fun i hi => hpre i (List.mem_cons_of_mem a hi))

/-- Claim C1: for every reachable cart state, the published snapshot satisfies
total = round2 (subtotal - discountAmount + tax + shippingCost) and
tax = round2 ((subtotal - discountAmount) * taxRate), with taxRate = 0.10. -/
theorem reachable_snapshot_invariant (s : ServiceState) (h : Reachable s) :
    s.cartState.total =
      round2 (s.cartState.subtotal - s.cartState.discountAmount +
        s.cartState.tax + s.cartState.shippingCost) ∧
    s.cartState.tax =
      round2 ((s.cartState.subtotal - s.cartState.discountAmount) * s.cartState.taxRate) ∧
    s.cartState.taxRate = 1/10 := by
  rw [reachable_state_consistent h]
  exact ⟨rfl, rfl, rfl⟩

/-- Witness for C1 at the freshly constructed empty service state. -/
theorem reachable_snapshot_invariant_witness :
    (initialState [] none).cartState.total =
      round2 ((initialState [] none).cartState.subtotal -
        (initialState [] none).cartState.discountAmount +
        (initialState [] none).cartState.tax +
        (initialState [] none).cartState.shippingCost) ∧
    (initialState [] none).cartState.tax =
      round2 (((initialState [] none).cartState.subtotal -
        (initialState [] none).cartState.discountAmount) *
        (initialState [] none).cartState.taxRate) ∧
    (initialState [] none).cartState.taxRate = 1/10 :=
  reachable_snapshot_invariant (initialState [] none) (Reachable.init [] none)

/-- Claim C8: removeItem on a productId with no matching line republishes a
snapshot equal to the one published before the call. -/
theorem removeFromCart_absent_id_snapshot (s : ServiceState) (pid : ℤ)
    (h : Reachable s) (habs : ∀ i ∈ s.cartItems, i.id ≠ pid) :
    (removeFromCart s pid).cartState = s.cartState := by
  show updateCartState (s.cartItems.filter (fun i => decide (i.id ≠ pid))) s.discount =
    s.cartState
  rw [filter_keep_of_absent s.cartItems pid habs, ← reachable_state_consistent h]

/-- Witness for C8 at the empty service state and productId 1. -/
theorem removeFromCart_absent_id_snapshot_witness :
    (removeFromCart (initialState [] none) 1).cartState = (initialState [] none).cartState :=
  removeFromCart_absent_id_snapshot (initialState [] none) 1 (Reachable.init [] none)
    (by intro i hi; cases hi)

/-- Claim C10: increaseQuantity, decreaseQuantity and setQuantity (with a
positive quantity) on a productId with no matching line leave the whole
service state unchanged: same items, same discount, same snapshot, and no new
snapshot publication (the publication counter is untouched). -/
theorem quantity_ops_absent_id_noop (s : ServiceState) (pid : ℤ) (q : ℚ)
    (habs : ∀ i ∈ s.cartItems, i.id ≠ pid) (hq : 1 ≤ q) :
    increaseQuantity s pid = s ∧ decreaseQuantity s pid = s ∧ setQuantity s pid q = s := by
  have hf := find_none_of_absent s.cartItems pid habs
  refine ⟨?_, ?_, ?_⟩
  · unfold increaseQuantity
    rw [hf]
  · unfold decreaseQuantity
    rw [hf]
  · unfold setQuantity
    rw [if_neg (by linarith : ¬ q ≤ 0), hf]

/-- Witness for C10 at the empty service state, productId 1, quantity 1. -/
theorem quantity_ops_absent_id_noop_witness :
    increaseQuantity (initialState [] none) 1 = initialState [] none ∧
    decreaseQuantity (initialState [] none) 1 = initialState [] none ∧
    setQuantity (initialState [] none) 1 1 = initialState [] none :=
  quantity_ops_absent_id_noop (initialState [] none) 1 1
    (by intro i hi; cases hi) (by norm_num)

/-- The code table entry for FLAT20. -/
theorem validateDiscountCode_flat20 : validateDiscountCode "FLAT20" =
    some { id := "2", code := "FLAT20", type := DiscountType.fixed, value := 20,
           maxDiscount := none, minAmount := some 50, applied := false } := by decide

/-- The code table entry for SAVE10. -/
theorem validateDiscountCode_save10 : validateDiscountCode "SAVE10" =
    some { id := "1", code := "SAVE10", type := DiscountType.percentage, value := 10,
           maxDiscount := none, minAmount := none, applied := false } := by decide

/-- Claim C9 (amended): whenever the cart is empty and no discount is
attached (after clearCart, or initially with no saved state), the recomputed
snapshot has subtotal 0, itemCount 0, discountAmount 0 and tax 0, while the
free-shipping test fails at subtotal 0, so shippingCost = 10 and total = 10.
(As stated the claim also covered removing the last line, but a fixed
discount that stays applied then keeps a nonzero discountAmount.) -/
theorem empty_cart_no_discount_snapshot (s : ServiceState) (h : Reachable s)
    (hitems : s.cartItems = []) (hdisc : s.discount = none) :
    s.cartState.subtotal = 0 ∧ s.cartState.itemCount = 0 ∧
    s.cartState.discountAmount = 0 ∧ s.cartState.tax = 0 ∧
    s.cartState.shippingCost = 10 ∧ s.cartState.total = 10 := by
  rw [reachable_state_consistent h, hitems, hdisc]
  norm_num [updateCartState, getSubtotal, getCartItemCount, getDiscountAmount,
    calculateTax, calculateShipping, round2, jsRound, TAX_RATE, SHIPPING_COST,
    FREE_SHIPPING_THRESHOLD]

/-- Witness for the amended C9 at the freshly constructed empty state. -/
theorem empty_cart_no_discount_snapshot_witness :
    (initialState [] none).cartState.subtotal = 0 ∧
    (initialState [] none).cartState.itemCount = 0 ∧
    (initialState [] none).cartState.discountAmount = 0 ∧
    (initialState [] none).cartState.tax = 0 ∧
    (initialState [] none).cartState.shippingCost = 10 ∧
    (initialState [] none).cartState.total = 10 :=
  empty_cart_no_discount_snapshot (initialState [] none) (Reachable.init [] none) rfl rfl

/-- Counterexample to claim C9 as stated: buy one 50-priced item, apply
FLAT20 (fixed 20, minimum 50), then remove the item.  The cart is empty, yet
the snapshot keeps discountAmount 20 (not 0), tax -2 (not 0) and total -12
(not 10). -/
theorem empty_cart_fixed_discount_counterexample :
    runEmptyWithDiscount.cartItems = [] ∧
    runEmptyWithDiscount.cartState.subtotal = 0 ∧
    runEmptyWithDiscount.cartState.itemCount = 0 ∧
    runEmptyWithDiscount.cartState.discountAmount = 20 ∧
    runEmptyWithDiscount.cartState.discountAmount ≠ 0 ∧
    runEmptyWithDiscount.cartState.tax = -2 ∧
    runEmptyWithDiscount.cartState.total = -12 := by
  norm_num [runEmptyWithDiscount, removeFromCart, applyDiscount, addToCart, initialState,
    publishState, updateCartState, getSubtotal, getCartItemCount, getDiscountAmount,
    calculateTax, calculateShipping, round2, jsRound, TAX_RATE, SHIPPING_COST,
    FREE_SHIPPING_THRESHOLD, minAmountBlocks, updateFirst, List.find?, List.filter,
    validateDiscountCode_flat20]

/-- Counterexample to claim C2 as stated: apply FLAT20 (minimum 50) at
subtotal 60, then remove an item so the subtotal drops to 40 < 50; the
snapshot's discount amount is still the full 20, not 0. -/
theorem discount_min_recheck_counterexample :
    runBelowMin.discount =
      some { id := "2", code := "FLAT20", type := DiscountType.fixed, value := 20,
             maxDiscount := none, minAmount := some 50, applied := true } ∧
    runBelowMin.cartState.subtotal = 40 ∧
    runBelowMin.cartState.subtotal < 50 ∧
    runBelowMin.cartState.discountAmount = 20 ∧
    runBelowMin.cartState.discountAmount ≠ 0 := by
  norm_num [runBelowMin, removeFromCart, applyDiscount, addToCart, initialState,
    publishState, updateCartState, getSubtotal, getCartItemCount, getDiscountAmount,
    calculateTax, calculateShipping, round2, jsRound, TAX_RATE, SHIPPING_COST,
    FREE_SHIPPING_THRESHOLD, minAmountBlocks, updateFirst, List.find?, List.filter,
    validateDiscountCode_flat20]

/-- Claim C2 (amended): the minimum-subtotal threshold is enforced only at
application time; once a fixed discount is applied, the snapshot keeps its
full value as the discount amount even when the subtotal has dropped below
the threshold. -/
theorem discount_min_not_rechecked (s : ServiceState) (d : Discount) (m : ℚ)
    (h : Reachable s) (hd : s.discount = some d) (happ : d.applied = true)
    (htype : d.type = DiscountType.fixed) (hmin : d.minAmount = some m)
    (hlt : s.cartState.subtotal < m) :
    s.cartState.discountAmount = d.value := by
  rw [reachable_state_consistent h]
  show getDiscountAmount s.discount s.cartItems = d.value
  rw [hd]
  simp [getDiscountAmount, happ, htype]

/-- Witness for the amended C2 at the concrete FLAT20 run of subtotal 40. -/
theorem discount_min_not_rechecked_witness :
    runBelowMin.cartState.discountAmount = 20 :=
  discount_min_not_rechecked runBelowMin
    { id := "2", code := "FLAT20", type := DiscountType.fixed, value := 20,
      maxDiscount := none, minAmount := some 50, applied := true } 50
    (Reachable.remove 2 (Reachable.applyDisc "FLAT20"
      (Reachable.add ⟨2, "B", 20, "b"⟩ 1
        (Reachable.add ⟨1, "A", 40, "a"⟩ 1 (Reachable.init [] none)))))
    (by norm_num [runBelowMin, removeFromCart, applyDiscount, addToCart, initialState,
      publishState, updateCartState, getSubtotal, getDiscountAmount, calculateTax,
      calculateShipping, round2, jsRound, minAmountBlocks, updateFirst, List.find?,
      List.filter, validateDiscountCode_flat20])
    rfl rfl rfl
    (by norm_num [runBelowMin, removeFromCart, applyDiscount, addToCart, initialState,
      publishState, updateCartState, getSubtotal, getCartItemCount, getDiscountAmount,
      calculateTax, calculateShipping, round2, jsRound, TAX_RATE, SHIPPING_COST,
      FREE_SHIPPING_THRESHOLD, minAmountBlocks, updateFirst, List.find?, List.filter,
      validateDiscountCode_flat20])

/-- Claim C3 evaluated at its failing input: apply FLAT20 (fixed 20) at
subtotal 50, then remove the expensive item so the subtotal falls to 5.  The
discount amount is not clamped to the subtotal and the published total is
negative, contradicting the claimed clamp. -/
theorem negative_total_at_failing_input :
    runOverDiscount.cartState.subtotal = 5 ∧
    runOverDiscount.cartState.discountAmount = 20 ∧
    runOverDiscount.cartState.subtotal < runOverDiscount.cartState.discountAmount ∧
    runOverDiscount.cartState.total = -13/2 ∧
    runOverDiscount.cartState.total < 0 := by
  norm_num [runOverDiscount, removeFromCart, applyDiscount, addToCart, initialState,
    publishState, updateCartState, getSubtotal, getCartItemCount, getDiscountAmount,
    calculateTax, calculateShipping, round2, jsRound, TAX_RATE, SHIPPING_COST,
    FREE_SHIPPING_THRESHOLD, minAmountBlocks, updateFirst, List.find?, List.filter,
    validateDiscountCode_flat20]

/-- Counterexample to claim C4 as stated: addToCart with quantity 0 on a
product not in the cart pushes a line whose quantity is 0, which lies outside
the claimed clamping range [1, 999]. -/
theorem addToCart_unclamped_counterexample :
    (addToCart (initialState [] none) ⟨1, "W", 10, "w"⟩ 0).cartItems =
      [{ id := 1, title := "W", price := 10, image := "w", quantity := 0, subtotal := none }] ∧
    ¬ (1:ℚ) ≤ 0 := by
  constructor
  · norm_num [addToCart, initialState, publishState, List.find?]
  · norm_num

/-- Claim C4 (amended): addToCart never clamps.  On a product with no line in
the cart it appends a new line carrying exactly the given quantity; when a
line with the same productId exists, the first such line's quantity is
incremented by the given quantity. -/
theorem addToCart_exact_quantity (s : ServiceState) (p : ProductInfo) (q : ℚ) :
    ((∀ i ∈ s.cartItems, i.id ≠ p.id) →
      (addToCart s p q).cartItems = s.cartItems ++
        [{ id := p.id, title := p.title, price := p.price, image := p.image,
           quantity := q, subtotal := none }]) ∧
    (∀ pre item post, s.cartItems = pre ++ item :: post →
      (∀ i ∈ pre, i.id ≠ p.id) → item.id = p.id →
      (addToCart s p q).cartItems =
        pre ++ { item with quantity := item.quantity + q } :: post) := by
  constructor
  · intro habs
    unfold addToCart
    rw [find_none_of_absent s.cartItems p.id habs]
    rfl
  · intro pre item post hdec hpre hit
    unfold addToCart
    rw [hdec, find_first_entry pre post item _
      (fun i hi => decide_eq_false (hpre i hi)) (decide_eq_true hit)]
    dsimp only
    exact congrArg (fun l => (publishState s l s.discount).cartItems)
      (updateFirst_append pre post item _ _
        (fun i hi => decide_eq_false (hpre i hi)) (decide_eq_true hit))

/-- Witness for the amended C4: adding a fresh product with quantity 5. -/
theorem addToCart_exact_quantity_witness :
    (addToCart (initialState [] none) ⟨1, "W", 10, "w"⟩ 5).cartItems =
      [] ++ [{ id := 1, title := "W", price := 10, image := "w",
               quantity := 5, subtotal := none }] :=
  (addToCart_exact_quantity (initialState [] none) ⟨1, "W", 10, "w"⟩ 5).1
    (by intro i hi; cases hi)

/-- Every discount the code table can return has either no minimum or the
minimum 50 of FLAT20. -/
theorem validateDiscountCode_minAmount (code : String) (d : Discount)
    (hv : validateDiscountCode code = some d) :
    d.minAmount = none ∨ d.minAmount = some 50 := by
  unfold validateDiscountCode at hv
  dsimp only at hv
  split at hv
  · cases hv; left; rfl
  · split at hv
    · cases hv; right; rfl
    · split at hv
      · cases hv; left; rfl
      · cases hv

/-- Claim C5: applyDiscount consults the fixed code table only through the
uppercased code (case-insensitive lookup); it returns false with the service
state (items, discount, snapshot, publication counter) completely unchanged
when the code is unknown or when the discount's minimum exceeds the current
subtotal; on success it returns true, stores the discount with applied = true
and publishes a freshly recomputed snapshot. -/
theorem applyDiscount_spec (s : ServiceState) (code : String) :
    (∀ other : String, jsToUpper code = jsToUpper other →
      applyDiscount s code = applyDiscount s other) ∧
    (validateDiscountCode code = none → applyDiscount s code = (false, s)) ∧
    (∀ d m, validateDiscountCode code = some d → d.minAmount = some m →
      getSubtotal s.cartItems < m → applyDiscount s code = (false, s)) ∧
    (∀ d, validateDiscountCode code = some d →
      (∀ m, d.minAmount = some m → m ≤ getSubtotal s.cartItems) →
      (applyDiscount s code).1 = true ∧
      (applyDiscount s code).2.cartItems = s.cartItems ∧
      (applyDiscount s code).2.discount = some { d with applied := true } ∧
      (applyDiscount s code).2.cartState =
        updateCartState s.cartItems (some { d with applied := true }) ∧
      (applyDiscount s code).2.snapshotVersion = s.snapshotVersion + 1) := by
  refine ⟨?_, ?_, ?_, ?_⟩
  · intro other hup
    unfold applyDiscount validateDiscountCode
    rw [hup]
  · intro hv
    unfold applyDiscount
    rw [hv]
  · intro d m hv hm hlt
    have hb : minAmountBlocks d (getSubtotal s.cartItems) = true := by
      rcases validateDiscountCode_minAmount code d hv with hnone | h50
      · rw [hnone] at hm; cases hm
      · rw [h50] at hm
        have hm50 : (50:ℚ) = m := by simpa using hm
        subst hm50
        unfold minAmountBlocks
        rw [h50]
        simp only [Bool.and_eq_true, decide_eq_true_eq]
        exact ⟨by norm_num, hlt⟩
    unfold applyDiscount
    rw [hv]
    dsimp only
    rw [if_pos hb]
  · intro d hv hge
    have hb : minAmountBlocks d (getSubtotal s.cartItems) = false := by
      rcases validateDiscountCode_minAmount code d hv with hnone | h50
      · unfold minAmountBlocks; rw [hnone]
      · have hnl : ¬ getSubtotal s.cartItems < 50 := not_lt.mpr (hge 50 h50)
        unfold minAmountBlocks
        rw [h50]
        simp [hnl]
    unfold applyDiscount
    rw [hv]
    dsimp only
    rw [if_neg (by simp [hb])]
    exact ⟨rfl, rfl, rfl, rfl, rfl⟩

/-- Witness for C5: an unknown code is rejected and the state is unchanged. -/
theorem applyDiscount_spec_witness :
    applyDiscount (initialState [] none) "BOGUS" = (false, initialState [] none) :=
  (applyDiscount_spec (initialState [] none) "BOGUS").2.1 (by decide)

/-- Claim C6, scenario A: one line of unit price 50 and quantity 2, then
SAVE10 (10 percent, no cap) is applied successfully; the published snapshot
reads subtotal 100, discountAmount 10, tax 9, shippingCost 0, total 99. -/
theorem scenarioA_snapshot :
    runScenarioA.1 = true ∧
    runScenarioA.2.cartState.subtotal = 100 ∧
    runScenarioA.2.cartState.discountAmount = 10 ∧
    runScenarioA.2.cartState.tax = 9 ∧
    runScenarioA.2.cartState.shippingCost = 0 ∧
    runScenarioA.2.cartState.total = 99 := by
  norm_num [runScenarioA, applyDiscount, addToCart, initialState, publishState,
    updateCartState, getSubtotal, getCartItemCount, getDiscountAmount, calculateTax,
    calculateShipping, round2, jsRound, TAX_RATE, SHIPPING_COST, FREE_SHIPPING_THRESHOLD,
    minAmountBlocks, updateFirst, List.find?, List.filter, validateDiscountCode_save10]

/-- Claim C7: for a productId present in the cart, setQuantity removes the
line when qty ≤ 0, and otherwise replaces the line's quantity by the clamp
Math.max 1 (Math.min qty 999). -/
theorem setQuantity_spec (s : ServiceState) (pid : ℤ) (q : ℤ)
    (pre post : List CartItem) (item : CartItem)
    (hsplit : s.cartItems = pre ++ item :: post)
    (hpre : ∀ i ∈ pre, i.id ≠ pid) (hit : item.id = pid)
    (hpost : ∀ i ∈ post, i.id ≠ pid) :
    (q ≤ 0 → (setQuantity s pid (q:ℚ)).cartItems = pre ++ post) ∧
    (0 < q → (setQuantity s pid (q:ℚ)).cartItems =
      pre ++ { item with quantity := max 1 (min (q:ℚ) 999) } :: post) := by
  constructor
  · intro hq
    unfold setQuantity
    rw [if_pos (by exact_mod_cast hq : (q:ℚ) ≤ 0)]
    show s.cartItems.filter (fun i => decide (i.id ≠ pid)) = pre ++ post
    rw [hsplit, List.filter_append, filter_keep_of_absent pre pid hpre,
      List.filter_cons, if_neg (by simp [hit]), filter_keep_of_absent post pid hpost]
  · intro hq
    have hq0 : ¬ (q:ℚ) ≤ 0 := by
      rw [not_le]
      exact_mod_cast hq
    unfold setQuantity
    rw [if_neg hq0, hsplit, find_first_entry pre post item _
      (fun i hi => decide_eq_false (hpre i hi)) (decide_eq_true hit)]
    dsimp only
    exact congrArg (fun l => (publishState s l s.discount).cartItems)
      (updateFirst_append pre post item _ _
        (fun i hi => decide_eq_false (hpre i hi)) (decide_eq_true hit))

/-- Witness for C7: setQuantity with 1000 on the single line of the cart
clamps to Math.max 1 (Math.min 1000 999). -/
theorem setQuantity_spec_witness :
    (setQuantity (initialState
        [{ id := 1, title := "A", price := 50, image := "a", quantity := 2, subtotal := none }]
        none) 1 ((1000:ℤ):ℚ)).cartItems =
      [] ++ { id := 1, title := "A", price := 50, image := "a",
              quantity := max 1 (min ((1000:ℤ):ℚ) 999), subtotal := none } :: [] :=
  (setQuantity_spec (initialState
      [{ id := 1, title := "A", price := 50, image := "a", quantity := 2, subtotal := none }]
      none) 1 1000 [] []
    { id := 1, title := "A", price := 50, image := "a", quantity := 2, subtotal := none }
    rfl (by intro i hi; cases hi) rfl (by intro i hi; cases hi)).2 (by norm_num)
